import Mathlib

/-
Verification of the Smart Study Companion scheduling core.

Shallow embedding conventions:
- Instants (naive UTC datetimes of the source) are integers counting minutes
  since an epoch whose day 0 is a Monday; a calendar date is the integer day
  number (minutes divided by 1440, floored).  Python date() / hour / minute
  of a datetime become integer division and modulo (Euclidean, positive
  divisors 1440 and 60), which agree with Python floor division and
  nonnegative modulo.
- The user timezone (an IANA string resolved through ZoneInfo in the source)
  is modelled as a fixed offset in minutes; this is exact for fixed-offset
  zones such as UTC, which every concrete input below uses.  DST transitions
  are outside the model.
- Python floats in the weight engine become exact rationals; all concrete
  inputs keep values far from any comparison boundary, so no float rounding
  can change a branch.
- Database queries over a single user become pure functions on lists; each
  route operates on the sessions or tasks of the current user only, so the
  user id column is dropped from the embedded rows.
- SQLAlchemy assigns fresh primary keys on insert; newly inserted rows are
  given id 0 in the model, with a comment at each spot.  No theorem depends
  on the ids of inserted rows.
-/

namespace SSC

/-- Minutes in one day. -/
def minutesPerDay : Int := 1440

/-- Calendar date (day number) of an instant in minutes, Python datetime.date(). -/
def dateOf (t : Int) : Int := t / minutesPerDay

/-- Hour component of an instant, Python datetime.hour. -/
def hourOf (t : Int) : Int := (t % minutesPerDay) / 60

/-- Minute component of an instant, Python datetime.minute. -/
def minuteOf (t : Int) : Int := (t % minutesPerDay) % 60

/-- Weekday of a day number, 0 = Monday as in Python date.weekday(); day 0 of the
epoch is chosen to be a Monday. -/
def weekdayOf (d : Int) : Int := d % 7

inductive SessionStatus where
  | planned
  | inProgress
  | completed
  | partl       -- PARTIAL in the source; the source spelling is a reserved word here
  | skipped
  deriving DecidableEq, Repr

inductive TaskPriority where
  | low
  | medium
  | high
  | critical
  deriving DecidableEq, Repr

inductive TaskStatus where
  | todo
  | inProgress
  | blocked
  | onHold
  | completed
  deriving DecidableEq, Repr

inductive SubjectDifficulty where
  | easy
  | medium
  | hard
  deriving DecidableEq, Repr

inductive EnergyLevel where
  | low
  | medium
  | high
  deriving DecidableEq, Repr

/-- Recurrence frequency tag of the JSON pattern.  The source also accepts the
monthly frequency; no claim exercises it and it is not embedded, so theorems
below never mention it. -/
inductive Frequency where
  | daily
  | weekly
  | biweekly
  deriving DecidableEq, Repr

/-- Recurrence pattern JSON dict.  Optional fields model dict.get with its
default at each use site. -/
structure RecurrencePattern where
  frequency : Frequency
  interval : Option Int := none
  daysOfWeek : Option (List Int) := none
  weekdaysOnly : Option Bool := none
  advanceDays : Option Int := none
  deriving DecidableEq, Repr

/-- app.models.subject.Subject, the columns the scheduling core reads.
examDate is a calendar date (day number). -/
structure Subject where
  id : Nat
  difficulty : SubjectDifficulty
  examDate : Option Int := none
  deriving DecidableEq, Repr

/-- app.models.task.Task, the columns the scheduling core reads. -/
structure Task where
  id : Nat
  subjectId : Option Nat := none
  title : String := ""
  description : Option String := none
  deadline : Option Int := none
  estimatedMinutes : Int := 60
  actualMinutesSpent : Option Int := none
  timerMinutesSpent : Int := 0
  priority : TaskPriority := .medium
  status : TaskStatus := .todo
  subtasks : Option (List String) := none
  isCompleted : Bool := false
  isRecurringTemplate : Bool := false
  recurringTemplateId : Option Nat := none
  recurrencePattern : Option RecurrencePattern := none
  recurrenceEndDate : Option Int := none
  nextOccurrenceDate : Option Int := none
  createdAt : Int := 0
  preventAutoCompletion : Bool := false
  deriving DecidableEq, Repr

/-- Task.total_minutes_spent hybrid property: session time plus timer time,
with a null actual_minutes_spent counting as 0. -/
def Task.totalMinutesSpent (t : Task) : Int :=
  (t.actualMinutesSpent.getD 0) + t.timerMinutesSpent

end SSC

namespace SSC

/-
Embedding of app.api.routes.schedule._round_to_nearest_minutes.  The input is
an instant in SECONDS for this one function, because the source reads both the
minute and the second component.  Python round() rounds halves to even.
-/

/-- Round a nonnegative fraction a / b (b positive) to the nearest integer,
halves to even: the behaviour of Python round on the exact quotient. -/
def roundHalfEven (a b : Int) : Int :=
  let q := a / b
  let r := a % b
  if 2 * r < b then q
  else if 2 * r > b then q + 1
  else if q % 2 = 0 then q else q + 1

/-- app.api.routes.schedule._round_to_nearest_minutes on an instant in seconds:
total_seconds is built from the minute and second components, rounded to the
nearest multiple of the granularity, and written back modulo 60 minutes with
the hour left unchanged. -/
def roundToNearestMinutes (dtSeconds : Int) (minutes : Int) : Int :=
  let minuteComp := (dtSeconds % 3600) / 60
  let secondComp := dtSeconds % 60
  let totalSeconds := minuteComp * 60 + secondComp
  let roundedMinutes := roundHalfEven totalSeconds (minutes * 60) * minutes
  let hourStart := dtSeconds - dtSeconds % 3600
  hourStart + (roundedMinutes % 60) * 60

end SSC

namespace SSC

/-
Embedding of the weight engine, app.services.scheduling lines 104-250.
Weights are exact rationals in place of Python floats.
-/

/-- PRIORITY_WEIGHT table. -/
def priorityWeight : TaskPriority → ℚ
  | .low => 4/5
  | .medium => 1
  | .high => 13/10
  | .critical => 8/5

/-- DIFFICULTY_WEIGHT table. -/
def difficultyWeight : SubjectDifficulty → ℚ
  | .easy => 9/10
  | .medium => 1
  | .hard => 5/4

/-- ENERGY_SESSION_CAP table. -/
def energySessionCap : EnergyLevel → Int
  | .low => 45
  | .medium => 90
  | .high => 120

/-- WeightedTask dataclass; sortIndex is set to the negated weight on
construction, mirroring the dataclass post-init. -/
structure WeightedTask where
  sortIndex : ℚ
  weight : ℚ
  task : Task
  subject : Option Subject
  remainingMinutes : Int
  deriving DecidableEq, Repr

/-- Build a WeightedTask the way the dataclass constructor does. -/
def mkWeightedTask (weight : ℚ) (task : Task) (subject : Option Subject)
    (remainingMinutes : Int) : WeightedTask :=
  { sortIndex := -weight, weight := weight, task := task, subject := subject,
    remainingMinutes := remainingMinutes }

/-- app.services.scheduling._calculate_subject_weight_modifier.  The reference
instant is minutes UTC; the user timezone is a fixed offset in minutes.  The
source converts the reference to the local date before comparing with the exam
date, and multiplies in the exam urgency only when the exam is not in the
past. -/
def calculateSubjectWeightModifier (subject : Subject) (reference : Int)
    (tzOffset : Int) : ℚ :=
  let modifier := difficultyWeight subject.difficulty
  match subject.examDate with
  | none => modifier
  | some exam =>
    let refLocalDate := dateOf (reference + tzOffset)
    let daysUntilExam := exam - refLocalDate
    if daysUntilExam ≥ 0 then
      let examUrgency : ℚ := ((max 0 (30 - daysUntilExam) : Int) : ℚ) / 30
      modifier * (1 + examUrgency * (1/2))
    else
      modifier

/-- app.services.scheduling._calculate_deadline_weight_modifier.  delta_days is
the signed distance to the deadline in fractional days (the source divides
seconds by 86400; minutes by 1440 is the same quantity). -/
def calculateDeadlineWeightModifier (task : Task) (reference : Int) : ℚ :=
  match task.deadline with
  | none => 1
  | some dl =>
    let deltaDays : ℚ := ((dl : ℚ) - (reference : ℚ)) / 1440
    if deltaDays ≤ 0 then 7/4
    else
      let deadlinePressure := (max 0 (7 - deltaDays)) / 7
      1 + deadlinePressure

/-- Stable insertion of an element into a list sorted ascending by le: the new
element goes after every existing element that compares less-or-equal, which is
exactly the stability contract of the Python sort being modelled. -/
def insertBy {α : Type} (le : α → α → Bool) (x : α) : List α → List α
  | [] => [x]
  | y :: ys => if le y x then y :: insertBy le x ys else x :: y :: ys

/-- Stable insertion sort ascending by le, modelling Python list.sort. -/
def sortBy {α : Type} (le : α → α → Bool) : List α → List α
  | [] => []
  | x :: xs => insertBy le x (sortBy le xs)

/-- Ascending order on the WeightedTask sort index (descending weight). -/
def weightedTaskLe (a b : WeightedTask) : Bool :=
  decide (a.sortIndex ≤ b.sortIndex)

/-- Single-task body of the calculate_weights loop: none when the task is
skipped (completed, a recurring template, or with no remaining work). -/
def weighTask (subjects : List Subject) (reference : Int) (tzOffset : Int)
    (task : Task) : Option WeightedTask :=
  if task.isCompleted then none
  else if task.isRecurringTemplate then none
  else
    let subject := task.subjectId.bind fun sid =>
      subjects.find? fun s => s.id == sid
    let w0 := priorityWeight task.priority
    let w1 := match subject with
      | some s => w0 * calculateSubjectWeightModifier s reference tzOffset
      | none => w0
    let w2 := w1 * calculateDeadlineWeightModifier task reference
    let w3 := w2 + (task.estimatedMinutes : ℚ) / 120
    -- critical floor: CRITICAL tasks are raised to at least weight 2.0
    let w4 := if task.priority = TaskPriority.critical then max w3 2 else w3
    let totalSpent := task.totalMinutesSpent
    let remainingMinutes := max 0 (task.estimatedMinutes - totalSpent)
    if remainingMinutes ≤ 0 then none
    else some (mkWeightedTask w4 task subject remainingMinutes)

/-- app.services.scheduling.calculate_weights: weigh every schedulable task and
stable-sort descending by weight. -/
def calculateWeights (tasks : List Task) (subjects : List Subject)
    (reference : Int) (tzOffset : Int) : List WeightedTask :=
  sortBy weightedTaskLe (tasks.filterMap (weighTask subjects reference tzOffset))

end SSC

namespace SSC

/-
Embedding of the study-session store and the regeneration persistence
protocol, app.api.routes.schedule lines 105-349.  is_pinned is a nullable
boolean column (null on rows created before the migration), hence Option Bool.
-/

/-- app.models.study_session.StudySession, the columns the scheduler reads. -/
structure StudySession where
  id : Nat
  subjectId : Option Nat := none
  taskId : Option Nat := none
  startTime : Int
  endTime : Int
  status : SessionStatus
  energyLevel : Option String := none
  generatedBy : Option String := none
  isPinned : Option Bool := none
  notes : Option String := none
  deriving DecidableEq, Repr

/-- app.schemas.schedule.StudyBlock, one planned block of the generated plan. -/
structure StudyBlock where
  startTime : Int
  endTime : Int
  subjectId : Option Nat := none
  taskId : Option Nat := none
  focus : String := ""
  energyLevel : Option String := none
  generatedBy : String := "weekly"
  deriving DecidableEq, Repr

/-- app.schemas.schedule.DailyPlan. -/
structure DailyPlan where
  day : Int
  sessions : List StudyBlock
  deriving DecidableEq, Repr

/-- app.schemas.schedule.WeeklyPlan. -/
structure WeeklyPlan where
  userId : Nat
  generatedAt : Int
  days : List DailyPlan
  deriving DecidableEq, Repr

/-- app.api.routes.schedule._sessions_overlap: strict interval overlap of two
ranges (timezone normalisation of the source is a no-op on the integer
model). -/
def sessionsOverlap (s1 e1 s2 e2 : Int) : Bool :=
  !(decide (e1 ≤ s2) || decide (s1 ≥ e2))

/-- Cleanup rule for a single session, app.api.routes.schedule
._cleanup_stale_sessions: stale IN_PROGRESS rows (ended more than 2 hours
before now) become PARTIAL, missed PLANNED rows (ended more than 15 minutes
before now) become SKIPPED. -/
def cleanupSession (nowUtc : Int) (s : StudySession) : StudySession :=
  if s.status = SessionStatus.inProgress ∧ s.endTime < nowUtc - 120 then
    { s with status := SessionStatus.partl }
  else if s.status = SessionStatus.planned ∧ s.endTime < nowUtc - 15 then
    { s with status := SessionStatus.skipped }
  else s

/-- app.api.routes.schedule._cleanup_stale_sessions over the whole store. -/
def cleanupStaleSessions (sessions : List StudySession) (nowUtc : Int) :
    List StudySession :=
  sessions.map (cleanupSession nowUtc)

/-- Membership of a session start in the plan persistence window. -/
def inPlanWindow (windowStart windowEnd : Int) (s : StudySession) : Bool :=
  decide (windowStart ≤ s.startTime) && decide (s.startTime < windowEnd)

/-- Preserve-set predicate of _persist_sessions_to_db: status COMPLETED,
PARTIAL or IN_PROGRESS, or pinned. -/
def isPreservedStatus (s : StudySession) : Bool :=
  (s.status = SessionStatus.completed ∨ s.status = SessionStatus.partl ∨
    s.status = SessionStatus.inProgress : Prop) ∨ s.isPinned = some true

/-- The preserve set loaded by _persist_sessions_to_db before deleting:
sessions of the window whose status is COMPLETED, PARTIAL or IN_PROGRESS, or
which are pinned. -/
def preservedSessions (windowStart windowEnd : Int)
    (sessions : List StudySession) : List StudySession :=
  sessions.filter fun s => inPlanWindow windowStart windowEnd s && isPreservedStatus s

/-- Delete predicate of _persist_sessions_to_db: PLANNED or SKIPPED in the
window and not pinned (a null is_pinned counts as not pinned). -/
def isDeleted (windowStart windowEnd : Int) (s : StudySession) : Bool :=
  inPlanWindow windowStart windowEnd s &&
    (s.status = SessionStatus.planned ∨ s.status = SessionStatus.skipped : Prop) &&
    !(s.isPinned = some true : Prop)

/-- New row built from a planned block; status PLANNED, id assigned by the
database on insert (0 in the model), is_pinned at its column default false. -/
def blockToSession (b : StudyBlock) : StudySession :=
  { id := 0, subjectId := b.subjectId, taskId := b.taskId,
    startTime := b.startTime, endTime := b.endTime,
    status := SessionStatus.planned, energyLevel := b.energyLevel,
    generatedBy := some b.generatedBy, isPinned := some false }

/-- Planned blocks of the plan in day order, as iterated by the insert loop. -/
def planBlocks (plan : WeeklyPlan) : List StudyBlock :=
  plan.days.flatMap (fun d => d.sessions)

/-- Blocks the insert loop actually writes: those with no strict overlap
against any preserved session. -/
def insertedBlocks (plan : WeeklyPlan) (sessions : List StudySession)
    (windowStart windowEnd : Int) : List StudyBlock :=
  let preserved := preservedSessions windowStart windowEnd sessions
  (planBlocks plan).filter fun b =>
    !(preserved.any fun p => sessionsOverlap b.startTime b.endTime p.startTime p.endTime)

/-- app.api.routes.schedule._persist_sessions_to_db: compute the window from
the first and last plan day, load the preserve set, delete unpinned PLANNED
and SKIPPED rows of the window, then insert every block that does not overlap
a preserved session. -/
def persistSessionsToDb (plan : WeeklyPlan) (sessions : List StudySession) :
    List StudySession :=
  match plan.days.head?, plan.days.getLast? with
  | some firstDay, some lastDay =>
    let windowStart := firstDay.day
    let windowEnd := lastDay.day + minutesPerDay
    let afterDelete := sessions.filter fun s => !(isDeleted windowStart windowEnd s)
    afterDelete ++ (insertedBlocks plan sessions windowStart windowEnd).map blockToSession
  | _, _ => sessions

/-- Effect of POST /schedule/generate on the session store: the cleanup pass
always runs with the unrounded now, then the new plan is persisted when it has
any days (app.api.routes.schedule.generate_week_plan). -/
def generateEffectOnSessions (plan : WeeklyPlan) (sessions : List StudySession)
    (nowUtc : Int) : List StudySession :=
  let cleaned := cleanupStaleSessions sessions nowUtc
  if plan.days.isEmpty then cleaned else persistSessionsToDb plan cleaned

end SSC

namespace SSC

/-
Embedding of the overdue-task auto-reschedule, app.services.scheduling
lines 702-834.
-/

/-- app.services.scheduling._escalate_priority as a function on the priority
value (the source mutates the task in place). -/
def escalatePriority : TaskPriority → TaskPriority
  | .low => .medium
  | .medium => .high
  | .high => .critical
  | .critical => .critical

/-- app.services.scheduling._calculate_new_deadline: 23:59 of today, or of
tomorrow when the reference hour is at least 20; then, unless the original
deadline was exactly at 23:59, the original deadline hour and minute replace
the 23:59. -/
def calculateNewDeadline (deadline todayStart tomorrowStart ref : Int) : Int :=
  let newDeadline :=
    if hourOf ref ≥ 20 then tomorrowStart + 23 * 60 + 59
    else todayStart + 23 * 60 + 59
  if hourOf deadline ≠ 23 ∨ minuteOf deadline ≠ 59 then
    (newDeadline - (23 * 60 + 59)) +
      (min (hourOf deadline) 23) * 60 + (min (minuteOf deadline) 59)
  else newDeadline

/-- Per-task body of _auto_reschedule_overdue_tasks: the query keeps
non-completed, non-template tasks with a deadline; tasks between 1 and 7 days
overdue get a new deadline and an escalated priority; tasks more than 14 days
overdue are only flagged; everything else is untouched. -/
def rescheduleTask (today todayStart tomorrowStart ref : Int) (task : Task) :
    Task :=
  if task.isCompleted ∨ task.isRecurringTemplate then task
  else
    match task.deadline with
    | none => task
    | some dl =>
      let daysOverdue := today - dateOf dl
      if daysOverdue ≤ 0 then task
      else if daysOverdue > 14 then task
      else if daysOverdue ≤ 7 then
        { task with
            deadline := some (calculateNewDeadline dl todayStart tomorrowStart ref),
            priority := escalatePriority task.priority }
      else task

/-- app.services.scheduling._auto_reschedule_overdue_tasks on the task store
of one user (the summary strings of the source are presentation only). -/
def autoRescheduleOverdueTasks (tasks : List Task) (reference : Int) :
    List Task :=
  let today := dateOf reference
  let todayStart := today * minutesPerDay
  let tomorrowStart := todayStart + minutesPerDay
  tasks.map (rescheduleTask today todayStart tomorrowStart reference)

end SSC

namespace SSC

/-
Embedding of PATCH /schedule/sessions, app.api.routes.schedule
lines 443-773.  The update runs in one transaction: an HTTP error raised
anywhere leaves the stored rows untouched, which the model expresses by
returning the error instead of a new store.
-/

/-- app.schemas.session.StudySessionUpdate payload. -/
structure StudySessionUpdate where
  startTime : Option Int := none
  endTime : Option Int := none
  status : Option SessionStatus := none
  notes : Option String := none
  isPinned : Option Bool := none
  deriving DecidableEq, Repr

/-- HTTP error outcomes of the update route. -/
inductive UpdateError where
  | notFound        -- 404
  | badRequest      -- 400 (completed edit, bad times, bad duration)
  | conflict        -- 409 (overlap with another non-completed session)
  deriving DecidableEq, Repr

/-- app.api.routes.schedule._calculate_missing_time: when only one bound is
given, the other is derived so that the stored duration is kept. -/
def calculateMissingTime (session : StudySession) (payload : StudySessionUpdate) :
    Int × Int :=
  let duration := session.endTime - session.startTime
  match payload.startTime, payload.endTime with
  | some s, none => (s, s + duration)
  | none, some e => (e - duration, e)
  | some s, some e => (s, e)
  | none, none => (session.startTime, session.endTime)

/-- app.api.routes.schedule._is_session_shortening: exactly one bound given,
and it moves inward. -/
def isSessionShortening (session : StudySession) (payload : StudySessionUpdate) :
    Bool :=
  match payload.startTime, payload.endTime with
  | none, some e => decide (e < session.endTime)
  | some s, none => decide (s > session.startTime)
  | _, _ => false

/-- app.api.routes.schedule._check_session_conflict: first other session of
the user that is not COMPLETED and strictly overlaps the new interval. -/
def checkSessionConflict (sessions : List StudySession) (sessionId : Nat)
    (startTime endTime : Int) : Option StudySession :=
  sessions.find? fun o =>
    o.id ≠ sessionId ∧ o.status ≠ SessionStatus.completed ∧
      startTime < o.endTime ∧ endTime > o.startTime

/-- Metadata fields of the payload applied to the row (status, notes,
is_pinned), as done before the time handling in update_session. -/
def applySessionMeta (session : StudySession) (payload : StudySessionUpdate) :
    StudySession :=
  let s1 := match payload.status with
    | some st => { session with status := st }
    | none => session
  let s2 := match payload.notes with
    | some n => { s1 with notes := some n }
    | none => s1
  match payload.isPinned with
  | some p => { s2 with isPinned := some p }
  | none => s2

/-- Shortening branch _update_session_times_shortening: derive the missing
bound, validate order and duration, store; no conflict check. -/
def updateSessionTimesShortening (session : StudySession)
    (payload : StudySessionUpdate) : Except UpdateError StudySession :=
  let resolved := calculateMissingTime session payload
  if resolved.1 ≥ resolved.2 then .error .badRequest
  else
    let durationMinutes := resolved.2 - resolved.1
    if durationMinutes < 5 then .error .badRequest
    else if durationMinutes > 480 then .error .badRequest
    else .ok { session with startTime := resolved.1, endTime := resolved.2 }

/-- General branch _update_session_times: derive the missing bound, validate
order, reject with 409 on overlap with any other non-COMPLETED session of the
user, otherwise store. -/
def updateSessionTimes (sessions : List StudySession) (session : StudySession)
    (payload : StudySessionUpdate) (sessionId : Nat) :
    Except UpdateError StudySession :=
  let resolved := calculateMissingTime session payload
  if resolved.1 ≥ resolved.2 then .error .badRequest
  else
    match checkSessionConflict sessions sessionId resolved.1 resolved.2 with
    | some _ => .error .conflict
    | none => .ok { session with startTime := resolved.1, endTime := resolved.2 }

/-- PATCH /schedule/sessions body, app.api.routes.schedule.update_session.
Returns the updated store on success, the HTTP error otherwise (the single
transaction commits only on success). -/
def updateSession (sessions : List StudySession) (sessionId : Nat)
    (payload : StudySessionUpdate) : Except UpdateError (List StudySession) :=
  match sessions.find? (fun s => s.id == sessionId) with
  | none => .error .notFound
  | some session =>
    if session.status = SessionStatus.completed ∧
        (payload.startTime.isSome ∨ payload.endTime.isSome) then
      .error .badRequest
    else
      let sessionMeta := applySessionMeta session payload
      if payload.startTime.isSome ∨ payload.endTime.isSome then
        let bothValid : Except UpdateError Unit :=
          match payload.startTime, payload.endTime with
          | some s, some e =>
            let duration := e - s
            if duration < 5 then .error .badRequest
            else if duration > 480 then .error .badRequest
            else .ok ()
          | _, _ => .ok ()
        match bothValid with
        | .error e => .error e
        | .ok _ =>
          let updated :=
            if isSessionShortening session payload then
              updateSessionTimesShortening sessionMeta payload
            else
              updateSessionTimes sessions sessionMeta payload sessionId
          match updated with
          | .error e => .error e
          | .ok s2 =>
            .ok (sessions.map fun s => if s.id == sessionId then s2 else s)
      else
        .ok (sessions.map fun s => if s.id == sessionId then sessionMeta else s)

end SSC

namespace SSC

/-
Embedding of app.services.recurring_tasks.  Calendar dates are day numbers
(day 0 a Monday); pattern datetimes combine a day number with the time of day
of the start datetime, as _convert_to_datetime does.
-/

/-- app.services.recurring_tasks._calculate_daily_next: advance by the
interval, then step off Saturday and Sunday when weekdays_only is set (the
source while loop moves at most two days). -/
def calculateDailyNext (baseDate : Int) (pattern : RecurrencePattern) : Int :=
  let interval := pattern.interval.getD 1
  let nextDate := baseDate + interval
  if pattern.weekdaysOnly.getD false then
    if weekdayOf nextDate = 5 then nextDate + 2
    else if weekdayOf nextDate = 6 then nextDate + 1
    else nextDate
  else nextDate

/-- Days-of-week list with the source default and empty-list fallback: the
weekday of the base date. -/
def effectiveDaysOfWeek (baseDate : Int) (pattern : RecurrencePattern) :
    List Int :=
  match pattern.daysOfWeek with
  | none => [weekdayOf baseDate]
  | some [] => [weekdayOf baseDate]
  | some l => l

/-- app.services.recurring_tasks._calculate_weekly_next. -/
def calculateWeeklyNext (baseDate startDate : Int)
    (pattern : RecurrencePattern) : Int :=
  let interval := pattern.interval.getD 1
  let daysOfWeek := effectiveDaysOfWeek baseDate pattern
  let currentWeekday := weekdayOf baseDate
  let sortedDays := sortBy (fun a b => decide (a ≤ b)) daysOfWeek
  match sortedDays.find? (fun day => decide (day > currentWeekday)) with
  | some day => -- a later weekday of the same week
    let nextOccurrence := baseDate + (day - currentWeekday)
    if interval > 1 then
      let weeksSinceStart := (baseDate - startDate) / 7
      if weeksSinceStart % interval ≠ 0 then
        nextOccurrence + (interval - weeksSinceStart % interval) * 7
      else nextOccurrence
    else nextOccurrence
  | none => -- wrap to the first configured weekday of a later week
    let firstDay := (sortedDays.head?).getD 0
    baseDate + (7 - currentWeekday + firstDay + (interval - 1) * 7)

/-- app.services.recurring_tasks._calculate_biweekly_next. -/
def calculateBiweeklyNext (baseDate : Int) (pattern : RecurrencePattern) : Int :=
  let daysOfWeek := effectiveDaysOfWeek baseDate pattern
  let currentWeekday := weekdayOf baseDate
  let sortedDays := sortBy (fun a b => decide (a ≤ b)) daysOfWeek
  match sortedDays.find? (fun day => decide (day > currentWeekday)) with
  | some day => baseDate + (day - currentWeekday)
  | none =>
    let firstDay := (sortedDays.head?).getD 0
    baseDate + (14 - currentWeekday + firstDay)

/-- app.services.recurring_tasks._convert_to_datetime: combine the computed
day with the time of day of the start datetime. -/
def convertToDatetime (nextDate : Int) (startDate : Int) : Int :=
  nextDate * minutesPerDay + startDate % minutesPerDay

/-- app.services.recurring_tasks._check_end_date. -/
def checkEndDate (nextDatetime : Int) (endDate : Option Int) : Bool :=
  match endDate with
  | none => false
  | some e => decide (nextDatetime > e)

/-- app.services.recurring_tasks.calculate_next_occurrence: next occurrence
datetime after the last one (or after the start), none when the pattern is
missing or the result would pass the end date. -/
def calculateNextOccurrence (pattern : Option RecurrencePattern)
    (lastOccurrenceDate : Option Int) (startDate : Int)
    (endDate : Option Int := none) : Option Int :=
  match pattern with
  | none => none
  | some p =>
    let baseDate := dateOf (lastOccurrenceDate.getD startDate)
    if (match endDate with
        | some e => decide (baseDate ≥ dateOf e)
        | none => false) then none
    else
      let nextDate := match p.frequency with
        | .daily => calculateDailyNext baseDate p
        | .weekly => calculateWeeklyNext baseDate (dateOf startDate) p
        | .biweekly => calculateBiweeklyNext baseDate p
      let nextDatetime := convertToDatetime nextDate startDate
      if checkEndDate nextDatetime endDate then none
      else some nextDatetime

/-- app.services.recurring_tasks._get_last_occurrence_date: the deadline of
the instance with the maximal deadline, a null deadline ranking lowest; the
first maximal instance wins, as Python max does. -/
def getLastOccurrenceDate (existingInstances : List Task) : Option Int :=
  match existingInstances with
  | [] => none
  | first :: rest =>
    let key := fun (t : Task) => t.deadline.getD (-1000000000)
    let best := rest.foldl (fun b t => if key t > key b then t else b) first
    best.deadline

/-- app.services.recurring_tasks._calculate_start_date: last occurrence, else
template deadline, else created_at (never null). -/
def calculateStartDate (template : Task) (lastOccurrenceDate : Option Int) :
    Int :=
  ((lastOccurrenceDate.orElse fun _ => template.deadline)).getD template.createdAt

/-- app.services.recurring_tasks._instance_exists_for_date: some existing
instance has a deadline on the same calendar date. -/
def instanceExistsForDate (existingInstances : List Task) (deadline : Int) :
    Bool :=
  existingInstances.any fun inst =>
    match inst.deadline with
    | some d => decide (dateOf d = dateOf deadline)
    | none => false

/-- app.services.recurring_tasks._create_task_instance: copy of the template
fields with the given deadline; the database assigns the primary key on
insert (0 in the model). -/
def createTaskInstance (template : Task) (deadline : Int) : Task :=
  { id := 0,
    subjectId := template.subjectId,
    title := template.title,
    description := template.description,
    deadline := some deadline,
    estimatedMinutes := template.estimatedMinutes,
    priority := template.priority,
    status := template.status,
    subtasks := template.subtasks,
    isRecurringTemplate := false,
    recurringTemplateId := some template.id }

/-- app.services.recurring_tasks._update_template_next_occurrence_with_advance
as a function on the template row. -/
def updateTemplateNextOccurrenceWithAdvance (template : Task)
    (pattern : RecurrencePattern) (currentDeadline : Option Int) : Task :=
  match currentDeadline with
  | none => template
  | some cd =>
    let advanceDays := pattern.advanceDays.getD 0
    if advanceDays > 0 then
      { template with nextOccurrenceDate := some (cd - advanceDays * minutesPerDay) }
    else
      { template with nextOccurrenceDate := some cd }

/-- app.services.recurring_tasks._generate_instances_loop.  The Python while
loop is modelled with fuel; it terminates for every well-formed pattern (the
next occurrence is strictly later), and every theorem below supplies ample
fuel for its concrete inputs.  Returns the new instances in creation order
and the final loop deadline. -/
def generateInstancesLoop (fuel : Nat) (template : Task)
    (pattern : RecurrencePattern) (startDate targetDate : Int)
    (endDate : Option Int) (existingInstances : List Task)
    (forceRegenerate : Bool) (currentDeadline : Option Int) :
    List Task × Option Int :=
  match fuel with
  | 0 => ([], currentDeadline)
  | fuel + 1 =>
    match currentDeadline with
    | none => ([], none)
    | some cd =>
      if cd ≤ targetDate then
        if (match endDate with
            | some e => decide (cd > e)
            | none => false) then ([], some cd)  -- break past the end date
        else if !forceRegenerate && instanceExistsForDate existingInstances cd then
          let nextDeadline :=
            calculateNextOccurrence (some pattern) (some cd) startDate endDate
          generateInstancesLoop fuel template pattern startDate targetDate
            endDate existingInstances forceRegenerate nextDeadline
        else
          let inst := createTaskInstance template cd
          let nextDeadline :=
            calculateNextOccurrence (some pattern) (some cd) startDate endDate
          let rest := generateInstancesLoop fuel template pattern startDate
            targetDate endDate existingInstances forceRegenerate nextDeadline
          (inst :: rest.1, rest.2)
      else ([], some cd)

/-- app.services.recurring_tasks.generate_recurring_instances.  The ambient
clock (datetime.now) is the nowUtc parameter.  Returns the newly created
instances and the updated task store (template row updated, new rows
appended). -/
def generateRecurringInstances (fuel : Nat) (tasks : List Task)
    (template : Task) (weeksAhead : Int) (forceRegenerate : Bool)
    (nowUtc : Int) : List Task × List Task :=
  if !template.isRecurringTemplate then ([], tasks)
  else
    match template.recurrencePattern with
    | none => ([], tasks)
    | some pattern =>
      let endDate := template.recurrenceEndDate
      let target0 := nowUtc + weeksAhead * 7 * minutesPerDay
      let targetDate := match endDate with
        | some e => if target0 > e then e else target0
        | none => target0
      let existingInstances := tasks.filter fun t =>
        t.recurringTemplateId == some template.id
      let lastOccurrenceDate := getLastOccurrenceDate existingInstances
      let startDate := calculateStartDate template lastOccurrenceDate
      let result := generateInstancesLoop fuel template pattern startDate
        targetDate endDate existingInstances forceRegenerate (some startDate)
      let newInstances := result.1
      if newInstances.isEmpty then ([], tasks)
      else
        let template2 :=
          updateTemplateNextOccurrenceWithAdvance template pattern result.2
        let updated := tasks.map fun t =>
          if t.id == template.id then template2 else t
        (newInstances, updated ++ newInstances)

/-- app.services.recurring_tasks._check_instance_exists: looks up the FIRST
instance row of the template; takes the early true return when its deadline
date matches, and otherwise still returns whether any instance exists at all
(the literal final line of the source, return existing is not None). -/
def checkInstanceExists (tasks : List Task) (template : Task)
    (nextDate : Int) : Bool :=
  match tasks.find? (fun t => t.recurringTemplateId == some template.id) with
  | none => false
  | some existing =>
    match existing.deadline with
    | some dl => if dateOf dl = dateOf nextDate then true else true
    | none => true

/-- app.services.recurring_tasks._update_template_next_occurrence. -/
def updateTemplateNextOccurrence (template : Task)
    (pattern : RecurrencePattern) (nextDate completedDeadline : Int)
    (endDate : Option Int) : Task :=
  match calculateNextOccurrence (some pattern) (some nextDate)
      completedDeadline endDate with
  | some nextNextDate => { template with nextOccurrenceDate := some nextNextDate }
  | none => template

/-- app.services.recurring_tasks.generate_next_instance_on_completion:
rollover on completing a recurring instance.  Returns the created instance
(if any) and the updated task store. -/
def generateNextInstanceOnCompletion (tasks : List Task)
    (completedInstance : Task) : Option Task × List Task :=
  match completedInstance.recurringTemplateId with
  | none => (none, tasks)
  | some templateId =>
    match tasks.find? (fun t => t.id == templateId && t.isRecurringTemplate) with
    | none => (none, tasks)
    | some template =>
      match template.recurrencePattern with
      | none => (none, tasks)
      | some pattern =>
        match completedInstance.deadline with
        | none => (none, tasks)
        | some completedDeadline =>
          let endDate := template.recurrenceEndDate
          match calculateNextOccurrence (some pattern) (some completedDeadline)
              completedDeadline endDate with
          | none => (none, tasks)
          | some nextDate =>
            if checkInstanceExists tasks template nextDate then (none, tasks)
            else
              let nextInstance := createTaskInstance template nextDate
              let template2 := updateTemplateNextOccurrence template pattern
                nextDate completedDeadline endDate
              let updated := (tasks.map fun t =>
                if t.id == template.id then template2 else t) ++ [nextInstance]
              (some nextInstance, updated)

end SSC

namespace SSC

/-
Embedding of the weekly planner, app.services.scheduling lines 17-102 and
253-699.  Wall-clock times of day are (hour, minute) records; study-window
configurations mirror the raw JSON list of the user row.
-/

/-- Local wall-clock time of day. -/
structure TimeHM where
  hour : Int
  minute : Int
  deriving DecidableEq, Repr

/-- Minutes after local midnight of a wall-clock time. -/
def TimeHM.toMinutes (t : TimeHM) : Int := t.hour * 60 + t.minute

/-- WINDOW_SCHEDULE preset table. -/
def windowSchedule (name : String) : Option (TimeHM × TimeHM) :=
  if name = "morning" then some (⟨7, 0⟩, ⟨11, 0⟩)
  else if name = "afternoon" then some (⟨12, 0⟩, ⟨16, 30⟩)
  else if name = "evening" then some (⟨17, 0⟩, ⟨21, 0⟩)
  else if name = "night" then some (⟨21, 0⟩, ⟨23, 0⟩)
  else none

/-- One entry of the preferred_study_windows JSON list: a legacy bare string,
a preset object, a custom object (none inside when its range fails to parse),
or an object with an unrecognised type. -/
inductive StudyWindowConfig where
  | legacyName (name : String)
  | presetCfg (value : String)
  | customCfg (value : Option (TimeHM × TimeHM))
  | invalidCfg
  deriving DecidableEq, Repr

/-- app.services.scheduling._parse_window_config on a new-format entry. -/
def parseWindowConfig : StudyWindowConfig → Option (TimeHM × TimeHM)
  | .presetCfg value => windowSchedule value
  | .customCfg value => value
  | _ => none

/-- True when the JSON entry is a bare string (old format). -/
def StudyWindowConfig.isLegacyString : StudyWindowConfig → Bool
  | .legacyName _ => true
  | _ => false

/-- app.services.scheduling._parse_study_windows: an empty or missing list
falls back to the default evening window; an old-format list keeps the known
preset names; a new-format list keeps the entries that parse; and when
nothing parses the default evening window is returned again. -/
def parseStudyWindows (raw : List StudyWindowConfig) :
    List (TimeHM × TimeHM) :=
  let defaultWindows : List (TimeHM × TimeHM) := [(⟨17, 0⟩, ⟨21, 0⟩)]
  match raw with
  | [] => defaultWindows
  | first :: _ =>
    if first.isLegacyString then
      let windows := raw.filterMap fun cfg =>
        match cfg with
        | .legacyName name => windowSchedule name
        | _ => none
      if windows.isEmpty then defaultWindows else windows
    else
      let windows := raw.filterMap parseWindowConfig
      if windows.isEmpty then defaultWindows else windows

/-- app.models.user.User, the columns the planner reads; the timezone is a
fixed offset in minutes. -/
structure UserCfg where
  id : Nat
  tzOffset : Int
  preferredStudyWindows : List StudyWindowConfig
  maxSessionLength : Int
  breakDuration : Int
  deriving DecidableEq, Repr

/-- app.models.constraint.ScheduleConstraint, the columns the planner reads. -/
structure ScheduleConstraint where
  isRecurring : Bool
  daysOfWeek : Option (List Int) := none
  startTime : Option TimeHM := none
  endTime : Option TimeHM := none
  startDatetime : Option Int := none
  endDatetime : Option Int := none
  deriving DecidableEq, Repr

/-- app.services.scheduling._local_day_start: the UTC instant of local
midnight of the day containing the reference. -/
def localDayStart (reference tzOffset : Int) : Int :=
  let localized := reference + tzOffset
  (localized - localized % minutesPerDay) - tzOffset

/-- app.services.scheduling._window_to_range: apply the wall-clock window to
the local day, add a day for overnight windows, and convert back to UTC. -/
def windowToRange (dayStart : Int) (blk : TimeHM × TimeHM) (tzOffset : Int) :
    Int × Int :=
  let startLocal := dayStart + tzOffset + blk.1.toMinutes
  let endLocal0 := dayStart + tzOffset + blk.2.toMinutes
  let endLocal := if endLocal0 ≤ startLocal then endLocal0 + minutesPerDay
    else endLocal0
  (startLocal - tzOffset, endLocal - tzOffset)

/-- app.services.scheduling._is_recurring_constraint_relevant. -/
def isRecurringConstraintRelevant (c : ScheduleConstraint) (weekday : Int) :
    Bool :=
  match c.daysOfWeek with
  | none => false
  | some [] => false   -- an empty list is falsy in the source conjunction
  | some days => days.contains weekday

/-- app.services.scheduling._is_one_time_constraint_relevant: the local dates
of the constraint bounds must bracket the day. -/
def isOneTimeConstraintRelevant (c : ScheduleConstraint) (day : Int)
    (tzOffset : Int) : Bool :=
  match c.startDatetime with
  | none => false
  | some sdt =>
    if dateOf (sdt + tzOffset) > day then false
    else
      match c.endDatetime with
      | none => false
      | some edt => decide (dateOf (edt + tzOffset) ≥ day)

/-- app.services.scheduling._extract_constraints_for_day. -/
def extractConstraintsForDay (constraints : List ScheduleConstraint)
    (day : Int) (tzOffset : Int) : List ScheduleConstraint :=
  let weekday := weekdayOf day
  constraints.filter fun c =>
    if c.isRecurring then isRecurringConstraintRelevant c weekday
    else isOneTimeConstraintRelevant c day tzOffset

/-- Overlap test of app.services.scheduling.apply_constraints: one-off
constraints compare instants directly; recurring constraints rebuild their
wall-clock range on the calendar day of the block start. -/
def constraintOverlapsBlock (blockStart blockEnd : Int)
    (c : ScheduleConstraint) : Bool :=
  match c.startDatetime, c.endDatetime with
  | some cs, some ce => !(decide (blockEnd ≤ cs) || decide (blockStart ≥ ce))
  | _, _ =>
    match c.startTime, c.endTime with
    | some st, some et =>
      let dayBase := blockStart - blockStart % minutesPerDay
      let cStart := dayBase + st.toMinutes
      let cEnd0 := dayBase + et.toMinutes
      let cEnd := if cEnd0 ≤ cStart then cEnd0 + minutesPerDay else cEnd0
      !(decide (blockEnd ≤ cStart) || decide (blockStart ≥ cEnd))
    | _, _ => false

/-- app.services.scheduling.apply_constraints: drop every window that
intersects any relevant constraint. -/
def applyConstraints (blocks : List (Int × Int))
    (constraints : List ScheduleConstraint) : List (Int × Int) :=
  match constraints with
  | [] => blocks
  | _ => blocks.filter fun b =>
      !(constraints.any fun c => constraintOverlapsBlock b.1 b.2 c)

/-- app.services.scheduling._energy_cap: the energy table entry for the level
(medium when none), capped by the user maximum. -/
def energyCap (level : Option EnergyLevel) (userMax : Int) : Int :=
  min (energySessionCap (level.getD EnergyLevel.medium)) userMax

/-- Tail of insert_breaks: each session is pushed forward (together with its
end) until its gap to the already-adjusted previous session reaches the
break duration, and then serves as the previous session for the next one. -/
def insertBreaksAux (prev : StudyBlock) (breakMinutes : Int) :
    List StudyBlock → List StudyBlock
  | [] => []
  | t :: rest =>
    let gap := t.startTime - prev.endTime
    let t2 := if gap < breakMinutes then
        { t with startTime := t.startTime + (breakMinutes - gap),
                 endTime := t.endTime + (breakMinutes - gap) }
      else t
    t2 :: insertBreaksAux t2 breakMinutes rest

/-- app.services.scheduling.insert_breaks: walk the day and push every
session forward until its gap to the previous one reaches the break
duration; shifts cascade. -/
def insertBreaks (sessions : List StudyBlock) (breakMinutes : Int) :
    List StudyBlock :=
  match sessions with
  | [] => []
  | s :: rest => s :: insertBreaksAux s breakMinutes rest

/-- Criticality test of interleave_subjects on one block via the task
priority map. -/
def isCriticalBlock (taskPriorities : List (Nat × TaskPriority))
    (b : StudyBlock) : Bool :=
  match b.taskId with
  | some tid =>
    match taskPriorities.lookup tid with
    | some p => p = TaskPriority.critical
    | none => false
  | none => false

/-- Swap two positions of a list (used for the interleave exchange). -/
def listSwap {α : Type} (l : List α) (i j : Nat) : List α :=
  match l.get? i, l.get? j with
  | some a, some b => (l.set i b).set j a
  | _, _ => l

/-- Body of the interleave loop at index i.  The source inner for loop
always breaks after its first candidate, so only the block two places ahead
is ever examined. -/
def interleaveStep (taskPriorities : List (Nat × TaskPriority))
    (result : List StudyBlock) (i : Nat) : List StudyBlock :=
  match result.get? i, result.get? (i + 1) with
  | some current, some nextSession =>
    if isCriticalBlock taskPriorities current then result
    else if isCriticalBlock taskPriorities nextSession then result
    else if current.subjectId = nextSession.subjectId then
      match result.get? (i + 2) with
      | some candidate =>
        if isCriticalBlock taskPriorities candidate then result
        else if candidate.subjectId ≠ current.subjectId then
          listSwap result (i + 1) (i + 2)
        else result
      | none => result
    else result
  | _, _ => result

/-- The while loop of interleave_subjects: the index advances by one on every
path while it is below length - 1. -/
def interleaveLoop (taskPriorities : List (Nat × TaskPriority))
    (fuel : Nat) (result : List StudyBlock) (i : Nat) : List StudyBlock :=
  match fuel with
  | 0 => result
  | fuel + 1 =>
    if i + 1 < result.length then
      interleaveLoop taskPriorities fuel
        (interleaveStep taskPriorities result i) (i + 1)
    else result

/-- app.services.scheduling.interleave_subjects. -/
def interleaveSubjects (sessions : List StudyBlock)
    (taskPriorities : List (Nat × TaskPriority)) : List StudyBlock :=
  if sessions.length < 2 then sessions
  else if taskPriorities.isEmpty then sessions
  else interleaveLoop taskPriorities sessions.length sessions 0

/-- app.services.scheduling._calculate_window_pointer: start of the window,
advanced to the current time when the window falls on the current UTC date;
none when the window is already over. -/
def calculateWindowPointer (windowStart windowEnd : Int)
    (currentTime : Option Int) : Option Int :=
  match currentTime with
  | none => some windowStart
  | some ct =>
    let pointer := if dateOf windowStart = dateOf ct then max windowStart ct
      else windowStart
    if pointer ≥ windowEnd then none else some pointer

/-- String form of an energy level, as stored on generated blocks. -/
def EnergyLevel.toValue : EnergyLevel → String
  | .low => "low"
  | .medium => "medium"
  | .high => "high"

/-- app.services.scheduling._process_task_in_window: one step of the
allocation loop, returning the created block (if any), the new pointer and
the updated task list. -/
def processTaskInWindow (tasks : List WeightedTask)
    (pointer windowEnd sessionCap breakDuration : Int)
    (energyLevel : Option EnergyLevel) :
    Option StudyBlock × Int × List WeightedTask :=
  match tasks with
  | [] => (none, pointer, tasks)
  | currentTask :: rest =>
    if pointer ≥ windowEnd then (none, pointer, tasks)
    else if currentTask.remainingMinutes ≤ 10 then
      -- noise task: drop it without scheduling
      (none, pointer, rest)
    else
      let windowRemaining := windowEnd - pointer
      if windowRemaining ≤ 10 then
        -- window too small: move to its end, keep the task
        (none, windowEnd, tasks)
      else
        let sessionLength :=
          min sessionCap (min currentTask.remainingMinutes windowRemaining)
        let session : StudyBlock :=
          { startTime := pointer,
            endTime := pointer + sessionLength,
            subjectId := currentTask.subject.map Subject.id,
            taskId := some currentTask.task.id,
            focus := currentTask.task.title,
            energyLevel := energyLevel.map EnergyLevel.toValue,
            generatedBy := "weekly" }
        let newPointer := pointer + sessionLength + breakDuration
        let newRemaining := currentTask.remainingMinutes - sessionLength
        let newTasks := if newRemaining ≤ 0 then rest
          else { currentTask with remainingMinutes := newRemaining } :: rest
        (some session, newPointer, newTasks)

/-- The while loop over one window of _allocate_sessions_for_day, with fuel
for the Python loop (each step pops a task or moves the pointer forward; the
concrete theorems supply ample fuel). -/
def allocateInWindow (fuel : Nat) (tasks : List WeightedTask)
    (pointer windowEnd sessionCap breakDuration : Int)
    (energyLevel : Option EnergyLevel) :
    List StudyBlock × List WeightedTask :=
  match fuel with
  | 0 => ([], tasks)
  | fuel + 1 =>
    if pointer < windowEnd ∧ tasks ≠ [] then
      let step := processTaskInWindow tasks pointer windowEnd sessionCap
        breakDuration energyLevel
      let rest := allocateInWindow fuel step.2.2 step.2.1 windowEnd sessionCap
        breakDuration energyLevel
      (step.1.toList ++ rest.1, rest.2)
    else ([], tasks)

/-- app.services.scheduling._allocate_sessions_for_day: walk the windows in
order, allocate greedily, then insert breaks and interleave subjects.
Returns the day sessions and the remaining (mutated) task list. -/
def allocateSessionsForDay (windows : List (Int × Int))
    (tasks : List WeightedTask) (energyLevel : Option EnergyLevel)
    (user : UserCfg) (currentTime : Option Int) :
    List StudyBlock × List WeightedTask :=
  let sessionCap := energyCap energyLevel user.maxSessionLength
  let taskPriorities := tasks.map fun wt => (wt.task.id, wt.task.priority)
  let allocated := windows.foldl
    (fun (acc : List StudyBlock × List WeightedTask) window =>
      match calculateWindowPointer window.1 window.2 currentTime with
      | none => acc
      | some pointer =>
        let fuel := acc.2.length + (window.2 - pointer).toNat + 1
        let run := allocateInWindow fuel acc.2 pointer window.2 sessionCap
          user.breakDuration energyLevel
        (acc.1 ++ run.1, run.2))
    ([], tasks)
  (interleaveSubjects (insertBreaks allocated.1 user.breakDuration)
    taskPriorities, allocated.2)

/-- Sort key of app.services.scheduling._sort_tasks_for_day: tasks whose
deadline falls on or before the day (in local time) come first, then by
descending weight; stable within groups. -/
def sortTasksForDayLe (tzOffset : Int) (dayDate : Int)
    (a b : WeightedTask) : Bool :=
  let key := fun (wt : WeightedTask) =>
    match wt.task.deadline with
    | some dl =>
      ((if dateOf (dl + tzOffset) ≤ dayDate then (0 : Int) else 1), -wt.weight)
    | none => ((1 : Int), -wt.weight)
  let ka := key a
  let kb := key b
  decide (ka.1 < kb.1) || (decide (ka.1 = kb.1) && decide (ka.2 ≤ kb.2))

/-- app.services.scheduling._sort_tasks_for_day. -/
def sortTasksForDay (tasks : List WeightedTask) (dayDate : Int)
    (tzOffset : Int) : List WeightedTask :=
  sortBy (sortTasksForDayLe tzOffset dayDate) tasks

/-- app.services.scheduling.build_weekly_plan: seven days from the local
midnight of the reference; each day resolves the preferred windows, removes
constrained ones, re-sorts the shared task list and allocates.  The task
list is threaded through the days exactly as the mutable Python list is. -/
def buildWeeklyPlan (user : UserCfg) (tasks : List WeightedTask)
    (constraints : List ScheduleConstraint)
    (energyByDay : List (Int × EnergyLevel)) (reference : Int) : WeeklyPlan :=
  let weekStart := localDayStart reference user.tzOffset
  let step := fun (acc : List DailyPlan × List WeightedTask) (offset : Int) =>
    let dayStart := weekStart + offset * minutesPerDay
    let dayDateLocal := dateOf (dayStart + user.tzOffset)
    let energyLevel := energyByDay.lookup dayDateLocal
    let timeWindows := parseStudyWindows user.preferredStudyWindows
    let windowRanges := timeWindows.map fun w =>
      windowToRange dayStart w user.tzOffset
    if windowRanges.isEmpty then
      (acc.1 ++ [{ day := dayStart, sessions := [] }], acc.2)
    else
      let effectiveConstraints :=
        extractConstraintsForDay constraints dayDateLocal user.tzOffset
      let availableBlocks := applyConstraints windowRanges effectiveConstraints
      let sorted := sortTasksForDay acc.2 dayDateLocal user.tzOffset
      let dayResult := allocateSessionsForDay availableBlocks sorted
        energyLevel user (some reference)
      (acc.1 ++ [{ day := dayStart, sessions := dayResult.1 }], dayResult.2)
  let final := [(0 : Int), 1, 2, 3, 4, 5, 6].foldl step ([], tasks)
  { userId := user.id, generatedAt := reference, days := final.1 }

end SSC

namespace SSC

/-
Concrete inputs used by the closed theorems and witnesses below.  Calendar
references: day 0 of the epoch is a Monday, so day 2 is a Wednesday; a day
number d corresponds to the instant d * 1440 at midnight UTC.
-/

/-- Spec-modelled formula, from the specification text of the exam urgency:
days = max(0, exam_date - local_today); multiplier 1 + max(0, 30 - days)/30
* 0.5.  Used only to compare the specification against the source
behaviour. -/
def specExamUrgencyMultiplier (examDate localToday : Int) : ℚ :=
  let days := max 0 (examDate - localToday)
  1 + ((max 0 (30 - days) : Int) : ℚ) / 30 * (1/2)

/-- Critical-priority task with a small estimate, no subject, no deadline:
weight 8/5 + 30/120 = 37/20, raised to the floor 2. -/
def c3critTask : Task :=
  { id := 1, title := "critical drill", estimatedMinutes := 30,
    priority := .critical }

/-- High-priority task with a large estimate, no subject, no deadline:
weight 13/10 + 480/120 = 53/10, above the critical floor. -/
def c3highTask : Task :=
  { id := 2, title := "high project", estimatedMinutes := 480,
    priority := .high }

/-- Subject whose exam was yesterday relative to the c9 reference (exam day
9, reference inside day 10). -/
def c9subject : Subject :=
  { id := 1, difficulty := .medium, examDate := some 9 }

/-- Reference instant for the c9 scenario: day 10 at 10:00 UTC. -/
def c9reference : Int := 10 * minutesPerDay + 600

/-- Overdue task of the c6 scenario: deadline on day 7 at 10:00, neither
completed nor a template, priority high. -/
def c6task : Task :=
  { id := 5, title := "overdue essay", deadline := some (7 * minutesPerDay + 600),
    priority := .high }

/-- Reference of the c6 scenario: day 10 at 12:00, so the task is 3 days
overdue and the reference hour is below 20. -/
def c6reference : Int := 10 * minutesPerDay + 720

/-- Stale IN_PROGRESS session of the c1 scenario: it ended at 09:00 of day 9,
more than two hours before the c1 regeneration instant. -/
def c1staleSession : StudySession :=
  { id := 1, startTime := 9 * minutesPerDay + 480,
    endTime := 9 * minutesPerDay + 540, status := .inProgress }

/-- Plan persisted by the c1 regeneration: one day (day 9), no blocks. -/
def c1plan : WeeklyPlan :=
  { userId := 1, generatedAt := 10 * minutesPerDay,
    days := [{ day := 9 * minutesPerDay, sessions := [] }] }

/-- Regeneration instant of the c1 scenario: midnight entering day 10. -/
def c1now : Int := 10 * minutesPerDay

/-- Completed session used by the c1 witness. -/
def c1completedSession : StudySession :=
  { id := 3, startTime := 9 * minutesPerDay + 600,
    endTime := 9 * minutesPerDay + 660, status := .completed }

/-- Preserved completed session of the c2 witness, on day 9. -/
def c2preservedSession : StudySession :=
  { id := 4, startTime := 9 * minutesPerDay + 600,
    endTime := 9 * minutesPerDay + 660, status := .completed }

/-- Block of the c2 witness plan that does not overlap the preserved
session. -/
def c2block : StudyBlock :=
  { startTime := 9 * minutesPerDay + 700, endTime := 9 * minutesPerDay + 760 }

/-- Plan of the c2 witness: one day (day 9) with the single block. -/
def c2plan : WeeklyPlan :=
  { userId := 1, generatedAt := 9 * minutesPerDay,
    days := [{ day := 9 * minutesPerDay, sessions := [c2block] }] }

/-- Weekly Wednesday pattern of the c4 scenario (S4 of the specification):
interval 1, days_of_week [2]. -/
def c4pattern : RecurrencePattern :=
  { frequency := .weekly, interval := some 1, daysOfWeek := some [2] }

/-- Recurring template of the c4 scenario. -/
def c4template : Task :=
  { id := 1, title := "weekly report", isRecurringTemplate := true,
    recurrencePattern := some c4pattern, deadline := some (2 * minutesPerDay) }

/-- Completed first instance of the c4 scenario, deadline Wednesday day 2. -/
def c4instance : Task :=
  { id := 2, title := "weekly report", deadline := some (2 * minutesPerDay),
    recurringTemplateId := some 1, isCompleted := true }

/-- Weekly pattern of the c8 counterexample: every second week on Monday and
Friday. -/
def c8pattern : RecurrencePattern :=
  { frequency := .weekly, interval := some 2, daysOfWeek := some [0, 4] }

/-- Template of the c8 counterexample, deadline Wednesday day 2. -/
def c8template : Task :=
  { id := 1, title := "biweekly lab", isRecurringTemplate := true,
    recurrencePattern := some c8pattern, deadline := some (2 * minutesPerDay) }

/-- Ambient clock of both c8 calls: day 15, giving a generation target of
day 22 with one week ahead. -/
def c8now : Int := 15 * minutesPerDay

/-- First expansion call of the c8 counterexample. -/
def c8call1 : List Task × List Task :=
  generateRecurringInstances 100 [c8template] c8template 1 false c8now

/-- Template row as updated by the first c8 call. -/
def c8templateAfter : Task :=
  (c8call1.2.find? fun t => t.isRecurringTemplate).getD c8template

/-- Second, identical expansion call of the c8 counterexample. -/
def c8call2 : List Task × List Task :=
  generateRecurringInstances 100 c8call1.2 c8templateAfter 1 false c8now

/-- Weekly interval-1 Wednesday pattern of the c8 amended scenario (the S4
configuration of the specification). -/
def c8aPattern : RecurrencePattern :=
  { frequency := .weekly, interval := some 1, daysOfWeek := some [2] }

/-- Template of the c8 amended scenario, deadline Wednesday day 2. -/
def c8aTemplate : Task :=
  { id := 1, title := "weekly quiz", isRecurringTemplate := true,
    recurrencePattern := some c8aPattern, deadline := some (2 * minutesPerDay) }

/-- Ambient clock of both c8 amended calls: Wednesday day 2 itself. -/
def c8aNow : Int := 2 * minutesPerDay

/-- First expansion call of the c8 amended scenario. -/
def c8aCall1 : List Task × List Task :=
  generateRecurringInstances 100 [c8aTemplate] c8aTemplate 1 false c8aNow

/-- Template row as updated by the first c8 amended call. -/
def c8aTemplateAfter : Task :=
  (c8aCall1.2.find? fun t => t.isRecurringTemplate).getD c8aTemplate

/-- Second, identical expansion call of the c8 amended scenario. -/
def c8aCall2 : List Task × List Task :=
  generateRecurringInstances 100 c8aCall1.2 c8aTemplateAfter 1 false c8aNow

/-- User of the c5 scenario: UTC, an EMPTY preferred_study_windows list,
90-minute session cap, 15-minute breaks. -/
def c5user : UserCfg :=
  { id := 1, tzOffset := 0, preferredStudyWindows := [],
    maxSessionLength := 90, breakDuration := 15 }

/-- Single open task of the c5 scenario. -/
def c5task : Task := { id := 7, title := "essay", estimatedMinutes := 120 }

/-- Weighted form of the c5 task (weight value irrelevant to the claim). -/
def c5weighted : WeightedTask := mkWeightedTask 1 c5task none 120

/-- Reference of the c5 scenario: Monday day 0 at 12:00 UTC. -/
def c5reference : Int := 720

/-- Plan generated for the c5 scenario. -/
def c5plan : WeeklyPlan := buildWeeklyPlan c5user [c5weighted] [] [] c5reference

/-- First session of the c7 witness store, to be moved onto the second. -/
def c7sessionA : StudySession :=
  { id := 1, startTime := 100, endTime := 160, status := .planned }

/-- Second session of the c7 witness store, PLANNED, hence conflict
relevant. -/
def c7sessionB : StudySession :=
  { id := 2, startTime := 200, endTime := 260, status := .planned }

/-- Payload of the c7 witness: move session 1 to 190-250, overlapping
session 2; both bounds given, so not a shortening. -/
def c7payload : StudySessionUpdate :=
  { startTime := some 190, endTime := some 250 }

/-- Shortening payload of the c7 witness: only an earlier end for
session 1. -/
def c7shorteningPayload : StudySessionUpdate :=
  { endTime := some 130 }

end SSC

namespace SSC

/-- Claim C10 (code bug): _round_to_nearest_minutes is claimed to stay within
n/2 minutes of its input for every input, but at 10:58:00 with the default
5-minute granularity it returns 10:00:00 of the same hour, 58 minutes early
(the rounded minute 60 is written back modulo 60 without carrying into the
hour), far beyond the 2.5-minute bound. -/
theorem c10_round_wraparound :
    roundToNearestMinutes (10 * 3600 + 58 * 60) 5 = 10 * 3600 ∧
    (10 * 3600 + 58 * 60) - roundToNearestMinutes (10 * 3600 + 58 * 60) 5 = 3480 ∧
    ¬((3480 : Int) ≤ 5 * 60 / 2) := by decide

/-- Claim C3 (code bug): the critical priority floor fails.  Both tasks are
non-completed non-templates with positive remaining minutes; the CRITICAL
task reaches only the floor weight 2 while the HIGH task with a 480-minute
estimate reaches 53/10, so calculate_weights ranks the HIGH task first,
contradicting the floor invariant stated in the specification and in the
source comments. -/
theorem c3_critical_floor_violation :
    c3critTask.priority = TaskPriority.critical ∧
    c3highTask.priority = TaskPriority.high ∧
    c3critTask.isCompleted = false ∧ c3highTask.isCompleted = false ∧
    c3critTask.isRecurringTemplate = false ∧
    c3highTask.isRecurringTemplate = false ∧
    ((calculateWeights [c3critTask, c3highTask] [] 0 0).map
      fun wt => wt.task.id) = [2, 1] ∧
    ((calculateWeights [c3critTask, c3highTask] [] 0 0).map
      fun wt => wt.weight) = [53/10, 2] := by
  norm_num [calculateWeights, weighTask, c3critTask, c3highTask, priorityWeight,
    difficultyWeight, calculateSubjectWeightModifier,
    calculateDeadlineWeightModifier, Task.totalMinutesSpent, mkWeightedTask,
    sortBy, insertBy, weightedTaskLe, List.filterMap]

/-- Claim C9 (counterexample): the claim computes days = max(0, exam_date -
local_today), so a subject whose exam was yesterday would get the full 1.5
multiplier; the source instead skips the exam factor entirely when the exam
date is in the past, returning the bare difficulty weight 1 rather than
3/2. -/
theorem c9_past_exam_counterexample :
    c9subject.examDate = some 9 ∧
    dateOf (c9reference + 0) = 10 ∧
    calculateSubjectWeightModifier c9subject c9reference 0 = 1 ∧
    difficultyWeight c9subject.difficulty *
      specExamUrgencyMultiplier 9 10 = 3/2 ∧
    ((1 : ℚ) = 3/2 → False) := by
  refine ⟨rfl, by decide, ?_, ?_, by norm_num⟩
  · norm_num [calculateSubjectWeightModifier, c9subject, c9reference,
      difficultyWeight, dateOf, minutesPerDay]
  · norm_num [specExamUrgencyMultiplier, difficultyWeight, c9subject]

/-- Claim C4 (code bug): completing the Wednesday instance of a weekly
template creates no new instance at all.  The next pattern date is the
following Wednesday (day 9) and no instance exists for it, yet
generate_next_instance_on_completion returns none and leaves the store
unchanged, because _check_instance_exists finds the completed instance
itself and reports that an instance exists regardless of its date. -/
theorem c4_completion_creates_no_instance :
    calculateNextOccurrence (some c4pattern) (some (2 * minutesPerDay))
      (2 * minutesPerDay) none = some (9 * minutesPerDay) ∧
    ([c4template, c4instance].all
      fun t => t.deadline ≠ some (9 * minutesPerDay)) = true ∧
    checkInstanceExists [c4template, c4instance] c4template
      (9 * minutesPerDay) = true ∧
    (generateNextInstanceOnCompletion [c4template, c4instance] c4instance).1
      = none ∧
    (generateNextInstanceOnCompletion [c4template, c4instance] c4instance).2
      = [c4template, c4instance] := by decide

/-- Claim C8 (counterexample): recurrence expansion is not idempotent.  With
the biweekly Monday-and-Friday pattern and identical parameters, the first
call creates instances on days 2, 4 and 14 and stops (the next date from
day 14 is phase-adjusted to day 25, past the target day 22); the second
call restarts with start_date equal to the last deadline, which resets the
week parity, so it computes day 18 as next and creates a fourth instance. -/
theorem c8_second_call_creates_instance :
    (c8call1.1.map fun t => t.deadline) =
      [some (2 * minutesPerDay), some (4 * minutesPerDay),
        some (14 * minutesPerDay)] ∧
    (c8call2.1.map fun t => t.deadline) = [some (18 * minutesPerDay)] ∧
    c8call2.1 ≠ [] := by decide

/-- Claim C8 (amended): for the S4 configuration of the specification — a
weekly interval-1 single-weekday pattern, whose next-occurrence computation
does not depend on the generation start date, and no prior instances — a
second call of generate_recurring_instances with the same template and the
same parameters produces no new instances. -/
theorem c8_idempotent_for_weekly_interval_one :
    (c8aCall1.1.map fun t => t.deadline) =
      [some (2 * minutesPerDay), some (9 * minutesPerDay)] ∧
    c8aCall2.1 = [] ∧ c8aCall2.2 = c8aCall1.2 := by decide

/-- Claim C5 (counterexample): an empty preferred_study_windows list does
not produce an empty week.  The parser falls back to the default evening
preset, and the generated plan schedules two sessions on day 0 for the
single open task, so not every day is empty. -/
theorem c5_empty_windows_counterexample :
    c5user.preferredStudyWindows = [] ∧
    (c5plan.days.all fun d => d.sessions.isEmpty) = false ∧
    (c5plan.days.map fun d => d.sessions.length) = [2, 0, 0, 0, 0, 0, 0] := by
  decide

/-- Claim C5 (amended): an empty preferred_study_windows list resolves to
the default evening preset 17:00-21:00 rather than to no windows, so the
planner fills the evening window instead of producing empty days: every
session generated on the first day of the c5 scenario lies inside the
evening window of that day, and the day is not empty.  (A day is left empty
only when the resolved window list is empty, which _parse_study_windows
never returns.) -/
theorem c5_empty_windows_use_evening_default :
    parseStudyWindows [] = [(⟨17, 0⟩, ⟨21, 0⟩)] ∧
    (c5plan.days.head?.map fun d =>
      d.sessions.all fun s =>
        decide (17 * 60 ≤ s.startTime) && decide (s.endTime ≤ 21 * 60))
      = some true ∧
    (c5plan.days.head?.map fun d => d.sessions.isEmpty) = some false := by
  decide

/-- Claim C1 (counterexample): a session that was IN_PROGRESS before the
regenerate call but ended more than two hours earlier does not keep its
status: the cleanup pass that the call always runs reclassifies it as
PARTIAL, so the session does not exist unchanged after the call. -/
theorem c1_stale_in_progress_counterexample :
    c1staleSession.status = SessionStatus.inProgress ∧
    c1staleSession.endTime < c1now - 120 ∧
    (generateEffectOnSessions c1plan [c1staleSession] c1now).all
      (fun s => !(s.id == c1staleSession.id &&
        s.status == SessionStatus.inProgress)) = true ∧
    (generateEffectOnSessions c1plan [c1staleSession] c1now).any
      (fun s => s.id == c1staleSession.id &&
        s.status == SessionStatus.partl) = true := by decide

/-- Claim C6 (counterexample): a task 3 days overdue whose deadline was at
10:00 is not moved to 23:59 of today.  The reference hour is 12, today is
day 10, and the rescheduled deadline keeps the original 10:00 time of day
(day 10 at 10:00 = 15000), not the end of today (day 10 at 23:59 =
15839). -/
theorem c6_keeps_time_of_day_counterexample :
    c6task.isCompleted = false ∧ c6task.isRecurringTemplate = false ∧
    dateOf c6reference - dateOf (7 * minutesPerDay + 600) = 3 ∧
    hourOf c6reference = 12 ∧
    ((autoRescheduleOverdueTasks [c6task] c6reference).map
      fun t => t.deadline) = [some 15000] ∧
    (15000 : Int) ≠ dateOf c6reference * minutesPerDay + 23 * 60 + 59 ∧
    ((autoRescheduleOverdueTasks [c6task] c6reference).map
      fun t => t.priority) = [TaskPriority.critical] := by decide

end SSC

namespace SSC

/-- Helper for claim C6: on a day start, the rescheduled deadline of
_calculate_new_deadline is the chosen day (today, or tomorrow when the
reference hour is at least 20) at the original deadline time of day; the
23:59 special case of the source coincides with this formula. -/
theorem calculateNewDeadline_formula (dl today ref : Int) :
    calculateNewDeadline dl (today * minutesPerDay)
      (today * minutesPerDay + minutesPerDay) ref =
    (if hourOf ref ≥ 20 then today + 1 else today) * minutesPerDay +
      hourOf dl * 60 + minuteOf dl := by
  have hh : min (hourOf dl) 23 = hourOf dl :=
    min_eq_left (by simp only [hourOf, minutesPerDay]; omega)
  have hm : min (minuteOf dl) 59 = minuteOf dl :=
    min_eq_left (by simp only [minuteOf, minutesPerDay]; omega)
  by_cases href : hourOf ref ≥ 20 <;>
    by_cases h23 : hourOf dl ≠ 23 ∨ minuteOf dl ≠ 59 <;>
      simp only [calculateNewDeadline, hh, hm, href, h23, if_true, if_false,
        ite_true, ite_false, not_true, not_false_iff] <;>
      push_neg at h23 <;>
      simp only [minutesPerDay] <;> omega

/-- Claim C6 (amended): schedule generation reschedules every non-completed,
non-template task that is 1 to 7 days overdue to the date of today — or of
tomorrow when the reference hour is at least 20 — KEEPING the original
deadline time of day (which is 23:59 only when the original deadline was at
23:59), and escalates the priority one step, capped at CRITICAL. -/
theorem c6_overdue_reschedule_amended (tasks : List Task) (reference dl : Int)
    (task : Task) (hmem : task ∈ tasks)
    (hnc : task.isCompleted = false) (hnt : task.isRecurringTemplate = false)
    (hdl : task.deadline = some dl)
    (h1 : 1 ≤ dateOf reference - dateOf dl)
    (h7 : dateOf reference - dateOf dl ≤ 7) :
    ∃ t' ∈ autoRescheduleOverdueTasks tasks reference,
      t'.id = task.id ∧
      t'.deadline = some ((if hourOf reference ≥ 20 then dateOf reference + 1
          else dateOf reference) * minutesPerDay
        + hourOf dl * 60 + minuteOf dl) ∧
      t'.priority = (match task.priority with
        | TaskPriority.low => TaskPriority.medium
        | TaskPriority.medium => TaskPriority.high
        | TaskPriority.high => TaskPriority.critical
        | TaskPriority.critical => TaskPriority.critical) := by
  simp only [autoRescheduleOverdueTasks]
  refine ⟨rescheduleTask (dateOf reference) (dateOf reference * minutesPerDay)
      (dateOf reference * minutesPerDay + minutesPerDay) reference task,
    List.mem_map_of_mem _ hmem, ?_⟩
  have hguard : ¬(task.isCompleted = true ∨ task.isRecurringTemplate = true) := by
    simp [hnc, hnt]
  have hb1 : ¬(dateOf reference - dateOf dl ≤ 0) := by omega
  have hb2 : ¬(dateOf reference - dateOf dl > 14) := by omega
  simp only [rescheduleTask, hdl]
  rw [if_neg hguard, if_neg hb1, if_neg hb2, if_pos h7]
  refine ⟨rfl, ?_, ?_⟩
  · rw [calculateNewDeadline_formula]
  · cases task.priority <;> rfl

/-- Witness for claim C6: the amendment applied to the concrete 3-days
overdue task with a 10:00 deadline and a 12:00 reference on day 10. -/
theorem c6_overdue_reschedule_amended_witness :
    ∃ t' ∈ autoRescheduleOverdueTasks [c6task] c6reference,
      t'.id = c6task.id ∧
      t'.deadline = some ((if hourOf c6reference ≥ 20 then dateOf c6reference + 1
          else dateOf c6reference) * minutesPerDay
        + hourOf (7 * minutesPerDay + 600) * 60
        + minuteOf (7 * minutesPerDay + 600)) ∧
      t'.priority = (match c6task.priority with
        | TaskPriority.low => TaskPriority.medium
        | TaskPriority.medium => TaskPriority.high
        | TaskPriority.high => TaskPriority.critical
        | TaskPriority.critical => TaskPriority.critical) :=
  c6_overdue_reschedule_amended [c6task] c6reference (7 * minutesPerDay + 600)
    c6task (by simp) rfl rfl rfl (by decide) (by decide)

/-- Claim C9 (amended): when the subject has an exam date, the weight
modifier equals the difficulty weight times the 1 + max(0, 30 - days)/30
* 0.5 urgency formula of the specification whenever days = exam_date -
local_today is nonnegative; when the exam date is in the past the source
applies NO exam factor (the modifier is the bare difficulty weight), rather
than the full 1.5 that the clamped specification formula would give. -/
theorem c9_exam_urgency_amended (subject : Subject)
    (reference tzOffset exam : Int) (hexam : subject.examDate = some exam) :
    (exam - dateOf (reference + tzOffset) ≥ 0 →
      calculateSubjectWeightModifier subject reference tzOffset =
        difficultyWeight subject.difficulty *
          specExamUrgencyMultiplier exam (dateOf (reference + tzOffset))) ∧
    (exam - dateOf (reference + tzOffset) < 0 →
      calculateSubjectWeightModifier subject reference tzOffset =
        difficultyWeight subject.difficulty) := by
  constructor
  · intro h
    have hmax : max 0 (exam - dateOf (reference + tzOffset)) =
        exam - dateOf (reference + tzOffset) := max_eq_right h
    simp [calculateSubjectWeightModifier, hexam, specExamUrgencyMultiplier,
      h, hmax]
  · intro h
    simp only [calculateSubjectWeightModifier, hexam]
    rw [if_neg (by omega)]

/-- Witness for claim C9: the amendment applied to the concrete subject with
an exam on day 9 and a reference inside day 10 (past exam, no factor). -/
theorem c9_exam_urgency_amended_witness :
    calculateSubjectWeightModifier c9subject c9reference 0 =
      difficultyWeight c9subject.difficulty :=
  (c9_exam_urgency_amended c9subject c9reference 0 9 rfl).2 (by decide)

end SSC

namespace SSC

/-- Helper for claim C1: the cleanup pass touches only the status column. -/
theorem cleanupSession_fields (nowUtc : Int) (s : StudySession) :
    (cleanupSession nowUtc s).id = s.id ∧
    (cleanupSession nowUtc s).startTime = s.startTime ∧
    (cleanupSession nowUtc s).endTime = s.endTime ∧
    (cleanupSession nowUtc s).isPinned = s.isPinned := by
  unfold cleanupSession
  split
  · exact ⟨rfl, rfl, rfl, rfl⟩
  · split
    · exact ⟨rfl, rfl, rfl, rfl⟩
    · exact ⟨rfl, rfl, rfl, rfl⟩

/-- Helper for claim C1: the cleanup image of a preserved-class session is
never selected by the delete pass of the persistence step. -/
theorem cleanupSession_not_deleted (nowUtc windowStart windowEnd : Int)
    (s : StudySession) (hpres : isPreservedStatus s = true) :
    isDeleted windowStart windowEnd (cleanupSession nowUtc s) = false := by
  simp only [isPreservedStatus, decide_eq_true_eq] at hpres
  rcases hpres with (h | h | h) | hpin
  · simp [isDeleted, cleanupSession, h]
  · simp [isDeleted, cleanupSession, h]
  · by_cases hstale : s.endTime < nowUtc - 120
    · simp [isDeleted, cleanupSession, h, hstale]
    · simp [isDeleted, cleanupSession, h, hstale]
  · simp [isDeleted, (cleanupSession_fields nowUtc s).2.2.2, hpin]

/-- Claim C1 (amended): every session that before a regenerate call has
status COMPLETED, PARTIAL or IN_PROGRESS, or is pinned, still exists after
the call with the same id, start_time and end_time; its status is also
unchanged EXCEPT that the cleanup pass the call always runs first may
reclassify it (IN_PROGRESS ended more than 2 hours before now becomes
PARTIAL; pinned PLANNED ended more than 15 minutes before now becomes
SKIPPED), which the cleanup image below captures. -/
theorem c1_preservation_amended (plan : WeeklyPlan)
    (sessions : List StudySession) (nowUtc : Int) (s : StudySession)
    (hmem : s ∈ sessions) (hpres : isPreservedStatus s = true) :
    ∃ s' ∈ generateEffectOnSessions plan sessions nowUtc,
      s'.id = s.id ∧ s'.startTime = s.startTime ∧ s'.endTime = s.endTime ∧
      s'.status = (cleanupSession nowUtc s).status := by
  obtain ⟨hid, hst, het, _⟩ := cleanupSession_fields nowUtc s
  refine ⟨cleanupSession nowUtc s, ?_, hid, hst, het, rfl⟩
  have hc : cleanupSession nowUtc s ∈ cleanupStaleSessions sessions nowUtc :=
    List.mem_map_of_mem _ hmem
  unfold generateEffectOnSessions
  split
  · exact hc
  · rename_i hne
    have hne2 : plan.days ≠ [] := by
      intro h
      rw [h] at hne
      exact hne rfl
    obtain ⟨fd, hfd⟩ : ∃ fd, plan.days.head? = some fd := by
      cases hdays : plan.days with
      | nil => exact absurd hdays hne2
      | cons a l => exact ⟨a, rfl⟩
    obtain ⟨ld, hld⟩ : ∃ ld, plan.days.getLast? = some ld :=
      Option.isSome_iff_exists.mp (List.getLast?_isSome.mpr hne2)
    unfold persistSessionsToDb
    rw [hfd, hld]
    refine List.mem_append_left _ ?_
    rw [List.mem_filter]
    exact ⟨hc, by
      rw [cleanupSession_not_deleted nowUtc fd.day (ld.day + minutesPerDay) s hpres]
      rfl⟩

/-- Witness for claim C1: the amendment applied to a concrete completed
session and a concrete one-day plan. -/
theorem c1_preservation_amended_witness :
    ∃ s' ∈ generateEffectOnSessions c1plan [c1completedSession] c1now,
      s'.id = c1completedSession.id ∧
      s'.startTime = c1completedSession.startTime ∧
      s'.endTime = c1completedSession.endTime ∧
      s'.status = (cleanupSession c1now c1completedSession).status :=
  c1_preservation_amended c1plan [c1completedSession] c1now c1completedSession
    (by simp) (by decide)

/-- Claim C2: no block written by the persistence step of a regeneration
strictly overlaps any session of the preserve set (the sessions of the plan
window whose status is COMPLETED, PARTIAL or IN_PROGRESS, or which are
pinned): the insert loop skips every block that overlaps a preserved
session. -/
theorem c2_inserted_blocks_avoid_preserved (plan : WeeklyPlan)
    (sessions : List StudySession) (firstDay lastDay : DailyPlan)
    (_hfirst : plan.days.head? = some firstDay)
    (_hlast : plan.days.getLast? = some lastDay)
    (b : StudyBlock) (p : StudySession)
    (hb : b ∈ insertedBlocks plan sessions firstDay.day
      (lastDay.day + minutesPerDay))
    (hp : p ∈ preservedSessions firstDay.day (lastDay.day + minutesPerDay)
      sessions) :
    sessionsOverlap b.startTime b.endTime p.startTime p.endTime = false := by
  simp only [insertedBlocks, List.mem_filter, Bool.not_eq_true',
    List.any_eq_false] at hb
  have h2 := hb.2 p hp
  simpa using h2

/-- Witness for claim C2: the theorem applied to a concrete plan whose
single block is inserted next to a concrete preserved completed session. -/
theorem c2_inserted_blocks_avoid_preserved_witness :
    sessionsOverlap c2block.startTime c2block.endTime
      c2preservedSession.startTime c2preservedSession.endTime = false :=
  c2_inserted_blocks_avoid_preserved c2plan [c2preservedSession]
    { day := 9 * minutesPerDay, sessions := [c2block] }
    { day := 9 * minutesPerDay, sessions := [c2block] }
    (by decide) (by decide) c2block c2preservedSession (by decide) (by decide)

end SSC

namespace SSC

/-- Helper for claim C7: applying the metadata fields of the payload leaves
the stored times untouched. -/
theorem applySessionMeta_times (session : StudySession)
    (payload : StudySessionUpdate) :
    (applySessionMeta session payload).startTime = session.startTime ∧
    (applySessionMeta session payload).endTime = session.endTime := by
  obtain ⟨ps, pe, pst, pn, pp⟩ := payload
  unfold applySessionMeta
  cases pst <;> cases pn <;> cases pp <;> exact ⟨rfl, rfl⟩

/-- Helper for claim C7: the resolved interval of the edit does not depend
on the metadata fields applied before the time handling. -/
theorem calculateMissingTime_meta (session : StudySession)
    (payload : StudySessionUpdate) :
    calculateMissingTime (applySessionMeta session payload) payload =
      calculateMissingTime session payload := by
  obtain ⟨hs, he⟩ := applySessionMeta_times session payload
  unfold calculateMissingTime
  rw [hs, he]

/-- Claim C7: on a time edit of a non-COMPLETED session that passes the time
validation, (a) if the edit is not a pure shortening and the resolved new
interval strictly overlaps some other non-COMPLETED session of the user, the
request fails with 409 CONFLICT (and the error return means the transaction
stores nothing, so the session times are unchanged); (b) a pure shortening
(only an earlier end, or only a later start) is never rejected for
overlap. -/
theorem c7_time_edit_conflict_handling (sessions : List StudySession)
    (sessionId : Nat) (payload : StudySessionUpdate) (session : StudySession)
    (hfind : sessions.find? (fun s => s.id == sessionId) = some session)
    (hnc : session.status ≠ SessionStatus.completed)
    (htime : payload.startTime.isSome ∨ payload.endTime.isSome)
    (hdur : ∀ s e, payload.startTime = some s → payload.endTime = some e →
      5 ≤ e - s ∧ e - s ≤ 480) :
    (isSessionShortening session payload = false →
      (calculateMissingTime session payload).1 <
        (calculateMissingTime session payload).2 →
      (∃ other ∈ sessions, other.id ≠ sessionId ∧
        other.status ≠ SessionStatus.completed ∧
        (calculateMissingTime session payload).1 < other.endTime ∧
        (calculateMissingTime session payload).2 > other.startTime) →
      updateSession sessions sessionId payload =
        Except.error UpdateError.conflict) ∧
    (isSessionShortening session payload = true →
      updateSession sessions sessionId payload ≠
        Except.error UpdateError.conflict) := by
  have hmeta := calculateMissingTime_meta session payload
  constructor
  · intro hshort horder hexists
    obtain ⟨other, hoMem, hoProps⟩ := hexists
    obtain ⟨c, hc⟩ : ∃ c, checkSessionConflict sessions sessionId
        (calculateMissingTime session payload).1
        (calculateMissingTime session payload).2 = some c := by
      apply Option.isSome_iff_exists.mp
      unfold checkSessionConflict
      rw [List.find?_isSome]
      exact ⟨other, hoMem, decide_eq_true hoProps⟩
    simp only [updateSession, hfind]
    rw [if_neg (fun h => hnc h.1), if_pos htime]
    rcases hs : payload.startTime with _ | s <;>
      rcases he : payload.endTime with _ | e
    · rw [hs, he] at htime
      simp at htime
    · simp only [hs, he, hshort, Bool.false_eq_true, if_false,
        updateSessionTimes, hmeta]
      rw [if_neg (not_le.mpr horder), hc]
    · simp only [hs, he, hshort, Bool.false_eq_true, if_false,
        updateSessionTimes, hmeta]
      rw [if_neg (not_le.mpr horder), hc]
    · obtain ⟨hd1, hd2⟩ := hdur s e hs he
      simp only [hs, he]
      rw [if_neg (by omega : ¬(e - s < 5)), if_neg (by omega : ¬(e - s > 480))]
      simp only [hshort, Bool.false_eq_true, if_false,
        updateSessionTimes, hmeta]
      rw [if_neg (not_le.mpr horder), hc]
  · intro hshort
    simp only [updateSession, hfind]
    rw [if_neg (fun h => hnc h.1), if_pos htime]
    rcases hs : payload.startTime with _ | s <;>
      rcases he : payload.endTime with _ | e
    · rw [hs, he] at htime
      simp at htime
    · simp only [hs, he, hshort, if_true, updateSessionTimesShortening]
      split
      · rename_i e2 heq
        split at heq
        · cases heq; simp
        · split at heq
          · cases heq; simp
          · split at heq
            · cases heq; simp
            · cases heq
      · simp
    · simp only [hs, he, hshort, if_true, updateSessionTimesShortening]
      split
      · rename_i e2 heq
        split at heq
        · cases heq; simp
        · split at heq
          · cases heq; simp
          · split at heq
            · cases heq; simp
            · cases heq
      · simp
    · simp only [isSessionShortening, hs, he] at hshort
      exact absurd hshort (by simp)

/-- Witness for claim C7: moving session 1 onto overlapping session 2 is
rejected with CONFLICT, while shortening session 1 is not. -/
theorem c7_time_edit_conflict_handling_witness :
    updateSession [c7sessionA, c7sessionB] 1 c7payload =
      Except.error UpdateError.conflict ∧
    updateSession [c7sessionA, c7sessionB] 1 c7shorteningPayload ≠
      Except.error UpdateError.conflict := by
  constructor
  · exact (c7_time_edit_conflict_handling [c7sessionA, c7sessionB] 1 c7payload
      c7sessionA (by decide) (by decide) (by decide)
      (fun s e hs he => by
        simp [c7payload] at hs he
        omega)).1 (by decide) (by decide)
      ⟨c7sessionB, by decide, by decide, by decide, by decide, by decide⟩
  · exact (c7_time_edit_conflict_handling [c7sessionA, c7sessionB] 1
      c7shorteningPayload c7sessionA (by decide) (by decide) (by decide)
      (fun s e hs he => by simp [c7shorteningPayload] at hs)).2 (by decide)

end SSC
